import Mathlib

/-!
Verification development for the Music-Recommendation-System repository.

The repository has two source modules:
  * `MR.py` — `load_user_artists` (tab-separated interaction file to a
    scipy COO sparse matrix, converted to CSR) and the `ArtistRetriever`
    class (pandas dataframe indexed by artist id, `get_artist_name_from_id`
    lookup).
  * `recommender.py` — the `ImplicitRecommender` facade composing an
    `ArtistRetriever` and an external `implicit` model (`fit`, `recommend`).

The shallow embedding below models:
  * a parsed tab-separated file as a `DataFrame` (header plus row-major
    cells); a cell is either numeric or a non-numeric string, mirroring the
    dtype a pandas column ends up with;
  * scipy's `coo_matrix((data, (rows, cols)))` followed by `.tocsr()` by the
    list of coordinate triples it is built from: `matEntry` gives the dense
    reading of the matrix (duplicate coordinates are summed, exactly the
    COO-to-CSR semantics) and `shapeOf` gives the inferred shape
    `(max row + 1, max col + 1)`;
  * Python exceptions as `Except` / error-option results; float weights as
    rationals;
  * the external `implicit` model as an abstract record of `fit` and
    `recommend` operations over an opaque state type, with object state
    threaded explicitly where a method can mutate it.
-/

/-- A cell of a parsed tab-separated file: numeric data (pandas would give
the column a numeric dtype, convertible by `astype(float)`) or a
non-numeric string. -/
inductive Cell where
  | num (q : ℚ)
  | str (s : String)
  deriving DecidableEq

/-- A parsed tab-separated file with a header row, as produced by
`pandas.read_csv(path, sep="\t")`: column names plus row-major cells. -/
structure DataFrame where
  header : List String
  rows : List (List Cell)

/-- Column access by name (`df["name"]` / `df.name` in pandas): `none` when
the named column is absent from the header, which in the source surfaces as
a `KeyError` from `set_index` or an attribute error. -/
def getCol (f : DataFrame) (name : String) : Option (List Cell) :=
  match f.header.findIdx? (fun h => h == name) with
  | some j => some (f.rows.map (fun row => row.getD j (Cell.str "")))
  | none => none

/-- Numeric reading of a cell, the semantics of `astype(float)`: fails on a
non-numeric cell (`ValueError` in the source). -/
def cellNum : Cell → Option ℚ
  | Cell.num q => some q
  | Cell.str _ => none

/-- Natural-number reading of a cell, used for the id columns that become
matrix coordinates. -/
def cellNat : Cell → Option ℕ
  | Cell.num q => if q.den = 1 ∧ 0 ≤ q.num then some q.num.toNat else none
  | Cell.str _ => none

/-- String rendering of a cell, the value read back from a dataframe column
holding names. -/
def cellText : Cell → String
  | Cell.str s => s
  | Cell.num q => toString q

/-- Whole-column conversion (`column.astype(...)` / pandas column typing):
fails if any cell fails. -/
def mapCells (g : Cell → Option α) : List Cell → Option (List α)
  | [] => some []
  | c :: cs =>
    match g c, mapCells g cs with
    | some a, some l => some (a :: l)
    | _, _ => none

/-- A coordinate triple `(userID, artistID, weight)` of the COO sparse
matrix built by `load_user_artists`. -/
abbrev Triple := ℕ × ℕ × ℚ

/-- Pairing of the three aligned columns into coordinate triples, as
`coo_matrix((data, (row, col)))` consumes them. -/
def zip3 : List ℕ → List ℕ → List ℚ → List Triple
  | u :: us, a :: as_, w :: ws => (u, a, w) :: zip3 us as_ ws
  | _, _, _ => []

/-- Errors `load_user_artists` (and `load_artists`) can raise: a missing
required column (`KeyError` from `set_index` / attribute access — a parsing
error) or non-numeric data where numbers are required (`ValueError` from
`astype(float)` — a type error). -/
inductive LoadErr where
  | missingColumn
  | typeError
  deriving DecidableEq

/-- Embedding of `MR.load_user_artists`: read the file, take the `userID`,
`artistID` and `weight` columns, cast `weight` to float, and build the COO
matrix from the three aligned columns (returned as its triple list; the
matrix reading is `matEntry` and its inferred shape `shapeOf`). -/
def load_user_artists (f : DataFrame) : Except LoadErr (List Triple) :=
  match getCol f "userID", getCol f "artistID", getCol f "weight" with
  | some us, some as_, some ws =>
    match mapCells cellNat us, mapCells cellNat as_, mapCells cellNum ws with
    | some us2, some as2, some ws2 => Except.ok (zip3 us2 as2 ws2)
    | _, _, _ => Except.error LoadErr.typeError
  | _, _, _ => Except.error LoadErr.missingColumn

/-- Dense reading of the sparse matrix built from coordinate triples:
scipy's COO-to-CSR conversion sums duplicate coordinates, so the entry at
`(u, i)` is the sum of the weights of all triples with that coordinate. -/
def matEntry : List Triple → ℕ → ℕ → ℚ
  | [], _, _ => 0
  | r :: rs, u, i => (if r.1 = u ∧ r.2.1 = i then r.2.2 else 0) + matEntry rs u i

/-- The shape scipy infers for `coo_matrix((data, (row, col)))` when no
explicit shape is passed: `(max row + 1, max col + 1)`. -/
def shapeOf (rows : List Triple) : ℕ × ℕ :=
  ((rows.map (fun r => r.1)).foldr Nat.max 0 + 1,
   (rows.map (fun r => r.2.1)).foldr Nat.max 0 + 1)

/-- Errors a lookup on `ArtistRetriever` can raise: calling it before any
load finds `_artists_df` still `None` (attribute error on `None` — an
uninitialized-state error), and an id absent from the index raises
`KeyError` from `.loc` (a not-found error). -/
inductive LookupErr where
  | uninitialized
  | notFound
  deriving DecidableEq

/-- Embedding of `MR.ArtistRetriever`: `_artists_df` is `None` until
`load_artists` stores the id-indexed dataframe, modelled as the list of
`(id, name)` rows in file order. -/
structure ArtistRetriever where
  _artists_df : Option (List (ℕ × String))

/-- `ArtistRetriever.__init__`: the private dataframe attribute starts as
`None`. -/
def ArtistRetriever.init : ArtistRetriever := ⟨none⟩

/-- Embedding of `ArtistRetriever.get_artist_name_from_id`:
`self._artists_df.loc[artist_id, "name"]`. With `_artists_df` still `None`
the attribute access fails (uninitialized); `.loc` on an id-indexed frame
returns the `name` field of the first row with that id key, and raises
`KeyError` when no row has it. -/
def ArtistRetriever.get_artist_name_from_id (r : ArtistRetriever) (artist_id : ℕ) :
    Except LookupErr String :=
  match r._artists_df with
  | none => Except.error LookupErr.uninitialized
  | some df =>
    match df.find? (fun p => p.1 == artist_id) with
    | some p => Except.ok p.2
    | none => Except.error LookupErr.notFound

/-- Parsing step of `ArtistRetriever.load_artists`: `read_csv` followed by
`set_index("id")`. The `id` column becomes the index (missing column:
`KeyError`, a parsing error; non-integer ids: type error) and the rows keep
their `name` field (further columns of the file are ignored, since only
`name` is ever read back). -/
def parseArtists (f : DataFrame) : Except LoadErr (List (ℕ × String)) :=
  match getCol f "id", getCol f "name" with
  | some idCells, some nameCells =>
    match mapCells cellNat idCells with
    | some ids => Except.ok (ids.zip (nameCells.map cellText))
    | none => Except.error LoadErr.typeError
  | _, _ => Except.error LoadErr.missingColumn

/-- Embedding of `ArtistRetriever.load_artists` with the object state
threaded: the method builds the whole indexed dataframe in locals and only
its final statement assigns `self._artists_df`, so on any error the
retriever keeps its previous state. Returns the post-state and the raised
error, if any. -/
def ArtistRetriever.load_artists (r : ArtistRetriever) (f : DataFrame) :
    ArtistRetriever × Option LoadErr :=
  match parseArtists f with
  | Except.ok df => (⟨some df⟩, none)
  | Except.error e => (r, some e)

/-- The external `implicit` factorization model (out-of-repo collaborator),
as the interface the facade needs: an opaque state type with `fit` and
`recommend` operations. `recommend(userid, user_items, N)` receives one
matrix row and returns the new opaque state together with up to `N` item
ids and their scores. -/
structure ImplicitModel (σ : Type) where
  fitFn : σ → (ℕ → ℕ → ℚ) → σ
  recommendFn : σ → ℕ → (ℕ → ℚ) → ℕ → σ × (List ℕ × List ℚ)

/-- Embedding of `recommender.ImplicitRecommender`: holds the injected
`ArtistRetriever` and `implicit` model. -/
structure ImplicitRecommender (σ : Type) where
  artist_retriever : ArtistRetriever
  implicit_model : ImplicitModel σ

/-- Embedding of `ImplicitRecommender.fit`: delegates training to the
injected model; only the model's opaque state changes. -/
def ImplicitRecommender.fit (rec : ImplicitRecommender σ) (ms : σ)
    (user_artists_matrix : List Triple) : σ :=
  rec.implicit_model.fitFn ms (matEntry user_artists_matrix)

/-- The list comprehension in `ImplicitRecommender.recommend`:
`[self.artist_retriever.get_artist_name_from_id(artist_id) for artist_id in
artist_ids]` — translated left to right, the first raised lookup error
propagating. -/
def mapLookup (r : ArtistRetriever) : List ℕ → Except LookupErr (List String)
  | [] => Except.ok []
  | id :: ids =>
    match r.get_artist_name_from_id id with
    | Except.error e => Except.error e
    | Except.ok name =>
      match mapLookup r ids with
      | Except.error e => Except.error e
      | Except.ok names => Except.ok (name :: names)

/-- Embedding of `ImplicitRecommender.recommend` with object state
threaded. As in the source, the row handed to the model is
`user_artists_matrix[n]` — the row indexed by the recommendation count `n`,
not by `user_id`. The first component is the post-state of every object
involved (the facade, the matrix argument, the model's opaque state); the
second is the returned `(artists, scores)` pair or the propagated lookup
error. -/
def ImplicitRecommender.recommend (rec : ImplicitRecommender σ) (ms : σ)
    (user_id : ℕ) (user_artists_matrix : List Triple) (n : ℕ) :
    (ImplicitRecommender σ × List Triple × σ) ×
      Except LookupErr (List String × List ℚ) :=
  let p := rec.implicit_model.recommendFn ms user_id (matEntry user_artists_matrix n) n
  ((rec, user_artists_matrix, p.1),
    match mapLookup rec.artist_retriever p.2.1 with
    | Except.ok artists => Except.ok (artists, p.2.2)
    | Except.error e => Except.error e)

/-- Follows the spec's words (§4.3), for comparison with
`ImplicitRecommender.recommend`: identical except that the row passed to
the model is the requester's own interaction row
`user_artists_matrix[user_id]`. -/
def recommendSpecRow (rec : ImplicitRecommender σ) (ms : σ)
    (user_id : ℕ) (user_artists_matrix : List Triple) (n : ℕ) :
    (ImplicitRecommender σ × List Triple × σ) ×
      Except LookupErr (List String × List ℚ) :=
  let p := rec.implicit_model.recommendFn ms user_id (matEntry user_artists_matrix user_id) n
  ((rec, user_artists_matrix, p.1),
    match mapLookup rec.artist_retriever p.2.1 with
    | Except.ok artists => Except.ok (artists, p.2.2)
    | Except.error e => Except.error e)

/-- A model whose recommendation output reveals, in its score list, the
value at column 0 of whichever matrix row it was handed. -/
def spyModel : ImplicitModel Unit :=
  ⟨fun s _ => s, fun s _uid row _n => (s, ([], [row 0]))⟩

/-- A facade built on `spyModel` with an empty (but loaded) artist table. -/
def spyRecommender : ImplicitRecommender Unit := ⟨⟨some []⟩, spyModel⟩

/-- An interaction matrix whose rows 3 and 10 differ at column 0. -/
def exMatrixRows : List Triple := [(3, 0, 5), (10, 0, 7)]

/-! Helper lemmas about the embedded operations. -/

/-- Every member of a list of naturals is bounded by its `foldr max`. -/
lemma le_foldrMax {l : List ℕ} {x : ℕ} (hx : x ∈ l) : x ≤ l.foldr Nat.max 0 := by
  induction l with
  | nil => cases hx
  | cons a t ih =>
    rcases List.mem_cons.mp hx with h | h
    · subst h; exact Nat.le_max_left _ _
    · exact le_trans (ih h) (Nat.le_max_right _ _)

/-- The `foldr max` of a nonempty list of naturals is one of its members. -/
lemma foldrMax_mem {l : List ℕ} (h : l ≠ []) : l.foldr Nat.max 0 ∈ l := by
  induction l with
  | nil => exact absurd rfl h
  | cons a t ih =>
    cases t with
    | nil => simp
    | cons b t2 =>
      rcases Nat.le_total a ((b :: t2).foldr Nat.max 0) with hle | hle
      · have : (a :: b :: t2).foldr Nat.max 0 = (b :: t2).foldr Nat.max 0 := by
          simpa [List.foldr] using Nat.max_eq_right hle
        rw [this]
        exact List.mem_cons_of_mem _ (ih (by simp))
      · have : (a :: b :: t2).foldr Nat.max 0 = a := by
          simpa [List.foldr] using Nat.max_eq_left hle
        rw [this]
        exact List.mem_cons_self _ _

/-- Every triple's coordinates are strictly below the inferred shape. -/
lemma shapeOf_bound (rows : List Triple) :
    ∀ r ∈ rows, r.1 < (shapeOf rows).1 ∧ r.2.1 < (shapeOf rows).2 := by
  intro r hr
  constructor
  · exact Nat.lt_succ_of_le (le_foldrMax (List.mem_map_of_mem _ hr))
  · exact Nat.lt_succ_of_le (le_foldrMax (List.mem_map_of_mem _ hr))

/-- Summing a single-point indicator over a grid that contains the point
yields its weight. -/
lemma sum_if_point (R C u0 i0 : ℕ) (w : ℚ) (hu : u0 < R) (hi : i0 < C) :
    (∑ u ∈ Finset.range R, ∑ i ∈ Finset.range C,
        (if u0 = u ∧ i0 = i then w else 0)) = w := by
  have hsplit : ∀ u i : ℕ,
      (if u0 = u ∧ i0 = i then w else 0)
        = if i0 = i then (if u0 = u then w else 0) else 0 := by
    intro u i
    by_cases h1 : u0 = u <;> by_cases h2 : i0 = i <;> simp [h1, h2]
  simp only [hsplit]
  have hinner : ∀ u : ℕ,
      (∑ i ∈ Finset.range C, if i0 = i then (if u0 = u then w else 0) else 0)
        = (if u0 = u then w else 0) := by
    intro u
    rw [Finset.sum_ite_eq]
    simp [hi]
  simp only [hinner]
  rw [Finset.sum_ite_eq]
  simp [hu]

/-- Summing all entries of the matrix over any grid covering every
coordinate gives the total of the triples' weights. -/
lemma sum_matEntry (rows : List Triple) (R C : ℕ)
    (hb : ∀ r ∈ rows, r.1 < R ∧ r.2.1 < C) :
    (∑ u ∈ Finset.range R, ∑ i ∈ Finset.range C, matEntry rows u i)
      = (rows.map (fun r => r.2.2)).sum := by
  induction rows with
  | nil => simp [matEntry]
  | cons r rs ih =>
    have hr := hb r (List.mem_cons_self _ _)
    have hrest : ∀ x ∈ rs, x.1 < R ∧ x.2.1 < C :=
      fun x hx => hb x (List.mem_cons_of_mem _ hx)
    simp only [matEntry, Finset.sum_add_distrib]
    rw [sum_if_point R C r.1 r.2.1 r.2.2 hr.1 hr.2, ih hrest]
    simp

/-- The matrix entry at `(u, i)` is the sum of the weights of exactly the
triples with coordinate `(u, i)`. -/
lemma matEntry_filter (rows : List Triple) (u i : ℕ) :
    matEntry rows u i
      = ((rows.filter (fun r => r.1 == u && r.2.1 == i)).map (fun r => r.2.2)).sum := by
  induction rows with
  | nil => simp [matEntry]
  | cons r rs ih =>
    by_cases h1 : r.1 = u <;> by_cases h2 : r.2.1 = i <;>
      simp [matEntry, List.filter_cons, h1, h2, ih]

/-- Projecting the weight column back out of the zipped triples. -/
lemma zip3_map_third (us as_ : List ℕ) (ws : List ℚ)
    (h1 : us.length = ws.length) (h2 : as_.length = ws.length) :
    (zip3 us as_ ws).map (fun r => r.2.2) = ws := by
  induction ws generalizing us as_ with
  | nil => cases us <;> cases as_ <;> simp [zip3]
  | cons w ws ih =>
    cases us with
    | nil => simp at h1
    | cons u us =>
      cases as_ with
      | nil => simp at h2
      | cons a as_ =>
        simp only [zip3, List.map_cons]
        rw [ih us as_ (by simpa using h1) (by simpa using h2)]

/-- A successful whole-column conversion keeps the column length. -/
lemma mapCells_length {g : Cell → Option α} {cs : List Cell} {l : List α}
    (h : mapCells g cs = some l) : l.length = cs.length := by
  induction cs generalizing l with
  | nil => simp [mapCells] at h; simp [← h]
  | cons c cs ih =>
    simp only [mapCells] at h
    cases hg : g c with
    | none => rw [hg] at h; simp at h
    | some a =>
      rw [hg] at h
      cases hm : mapCells g cs with
      | none => rw [hm] at h; simp at h
      | some l2 =>
        rw [hm] at h
        simp only [Option.some.injEq] at h
        simp [← h, ih hm]

/-- Whole-column conversion fails as soon as one cell fails. -/
lemma mapCells_none_of_bad {g : Cell → Option α} {cs : List Cell} {c : Cell}
    (hc : c ∈ cs) (hg : g c = none) : mapCells g cs = none := by
  induction cs with
  | nil => cases hc
  | cons d t ih =>
    rcases List.mem_cons.mp hc with h | h
    · subst h
      simp only [mapCells, hg]
    · simp only [mapCells, ih h]
      cases g d <;> rfl

/-- An extracted column has one cell per file row. -/
lemma getCol_length {f : DataFrame} {name : String} {cells : List Cell}
    (h : getCol f name = some cells) : cells.length = f.rows.length := by
  unfold getCol at h
  cases hj : f.header.findIdx? (fun h => h == name) with
  | none => rw [hj] at h; simp at h
  | some j =>
    rw [hj] at h
    simp only [Option.some.injEq] at h
    simp [← h]

/-- When no row carries the id, the indexed-frame search comes up empty. -/
lemma find_none_of_absent (df : List (ℕ × String)) (id : ℕ)
    (h : ∀ p ∈ df, p.1 ≠ id) : df.find? (fun p => p.1 == id) = none := by
  induction df with
  | nil => rfl
  | cons q t ih =>
    have hq : (q.1 == id) = false := by
      simpa using h q (List.mem_cons_self _ _)
    simp only [List.find?, hq]
    exact ih (fun p hp => h p (List.mem_cons_of_mem _ hp))

/-- When the id's row is unique, the indexed-frame search returns it. -/
lemma find_some_of_unique (df : List (ℕ × String)) (id : ℕ) (name : String)
    (hmem : (id, name) ∈ df)
    (huniq : ∀ p ∈ df, p.1 = id → p.2 = name) :
    df.find? (fun p => p.1 == id) = some (id, name) := by
  induction df with
  | nil => cases hmem
  | cons q t ih =>
    by_cases hq : q.1 = id
    · have hname : q.2 = name := huniq q (List.mem_cons_self _ _) hq
      have : q = (id, name) := Prod.ext hq hname
      simp [List.find?, hq, this]
    · have hq2 : (q.1 == id) = false := by simpa using hq
      simp only [List.find?, hq2]
      have hmem2 : (id, name) ∈ t := by
        rcases List.mem_cons.mp hmem with h | h
        · exact absurd (congrArg Prod.fst h.symm) hq
        · exact h
      exact ih hmem2 (fun p hp hpid => huniq p (List.mem_cons_of_mem _ hp) hpid)

/-- On a loaded retriever every lookup failure is a not-found error. -/
lemma lookup_error_of_loaded {r : ArtistRetriever} {df : List (ℕ × String)}
    (h : r._artists_df = some df) {id : ℕ} {e : LookupErr}
    (he : r.get_artist_name_from_id id = Except.error e) : e = LookupErr.notFound := by
  cases r with
  | mk rdf =>
    simp only at h
    subst h
    simp only [ArtistRetriever.get_artist_name_from_id] at he
    cases hf : df.find? (fun p => p.1 == id) with
    | none => rw [hf] at he; simpa using he.symm
    | some p => rw [hf] at he; simp at he

/-- The comprehension propagates a not-found error raised by any id in the
list once the retriever is loaded. -/
lemma mapLookup_error_of_missing {r : ArtistRetriever} {df : List (ℕ × String)}
    (h : r._artists_df = some df) {ids : List ℕ} {id0 : ℕ} (hm : id0 ∈ ids)
    (hmiss : r.get_artist_name_from_id id0 = Except.error LookupErr.notFound) :
    mapLookup r ids = Except.error LookupErr.notFound := by
  induction ids with
  | nil => cases hm
  | cons a t ih =>
    cases hl : r.get_artist_name_from_id a with
    | error e =>
      have : e = LookupErr.notFound := lookup_error_of_loaded h hl
      subst this
      simp [mapLookup, hl]
    | ok name =>
      have hmt : id0 ∈ t := by
        rcases List.mem_cons.mp hm with hEq | hmt
        · subst hEq; rw [hl] at hmiss; exact absurd hmiss (by simp)
        · exact hmt
      simp [mapLookup, hl, ih hmt]

/-- When every id in the list resolves, the comprehension succeeds and
translates the ids position by position (duplicates included). -/
lemma mapLookup_ok {r : ArtistRetriever} {ids : List ℕ}
    (hok : ∀ id ∈ ids, ∃ s, r.get_artist_name_from_id id = Except.ok s) :
    ∃ names, mapLookup r ids = Except.ok names
      ∧ names.length = ids.length
      ∧ ∀ (k : ℕ) (hk : k < ids.length) (hk2 : k < names.length),
          r.get_artist_name_from_id (ids.get ⟨k, hk⟩)
            = Except.ok (names.get ⟨k, hk2⟩) := by
  induction ids with
  | nil =>
    refine ⟨[], rfl, rfl, ?_⟩
    intro k hk
    exact absurd hk (Nat.not_lt_zero k)
  | cons a t ih =>
    obtain ⟨s, hs⟩ := hok a (List.mem_cons_self _ _)
    obtain ⟨names, hnames, hlen, hget⟩ :=
      ih (fun id hid => hok id (List.mem_cons_of_mem _ hid))
    refine ⟨s :: names, ?_, by simp [hlen], ?_⟩
    · simp [mapLookup, hs, hnames]
    · intro k hk hk2
      cases k with
      | zero => simpa using hs
      | succ k =>
        have hkt : k < t.length := by simpa using hk
        have hkn : k < names.length := by simpa using hk2
        simpa using hget k hkt hkn

/-- A column named in the header is found by column access. -/
lemma getCol_isSome_of_mem {f : DataFrame} {name : String} (h : name ∈ f.header) :
    ∃ cells, getCol f name = some cells := by
  unfold getCol
  cases hj : f.header.findIdx? (fun h => h == name) with
  | some j => exact ⟨_, rfl⟩
  | none =>
    rw [List.findIdx?_eq_none_iff] at hj
    have := hj name h
    simp at this

/-- A column absent from the header is not found by column access. -/
lemma getCol_none_of_not_mem {f : DataFrame} {name : String} (h : name ∉ f.header) :
    getCol f name = none := by
  unfold getCol
  have hj : f.header.findIdx? (fun h => h == name) = none := by
    rw [List.findIdx?_eq_none_iff]
    intro x hx
    simp only [beq_eq_false_iff_ne, ne_eq]
    intro hEq
    exact h (hEq ▸ hx)
  rw [hj]

/-- Inversion of a successful `load_user_artists` run: all three columns
were found, all three converted, and the result is their zip. -/
lemma load_user_artists_ok_elim {f : DataFrame} {rows : List Triple}
    (h : load_user_artists f = Except.ok rows) :
    ∃ us as_ ws us2 as2 ws2,
      getCol f "userID" = some us ∧ getCol f "artistID" = some as_ ∧
      getCol f "weight" = some ws ∧
      mapCells cellNat us = some us2 ∧ mapCells cellNat as_ = some as2 ∧
      mapCells cellNum ws = some ws2 ∧
      rows = zip3 us2 as2 ws2 := by
  unfold load_user_artists at h
  cases hu : getCol f "userID" <;> rw [hu] at h <;>
    cases ha : getCol f "artistID" <;> rw [ha] at h <;>
      cases hw : getCol f "weight" <;> rw [hw] at h <;>
        simp only [] at h
  case none.none.none => simp at h
  case none.none.some => simp at h
  case none.some.none => simp at h
  case none.some.some => simp at h
  case some.none.none => simp at h
  case some.none.some => simp at h
  case some.some.none => simp at h
  case some.some.some us as_ ws =>
    cases hu2 : mapCells cellNat us <;> rw [hu2] at h <;>
      cases ha2 : mapCells cellNat as_ <;> rw [ha2] at h <;>
        cases hw2 : mapCells cellNum ws <;> rw [hw2] at h <;>
          simp only [] at h
    case none.none.none => simp at h
    case none.none.some => simp at h
    case none.some.none => simp at h
    case none.some.some => simp at h
    case some.none.none => simp at h
    case some.none.some => simp at h
    case some.some.none => simp at h
    case some.some.some us2 as2 ws2 =>
      have : zip3 us2 as2 ws2 = rows := by simpa using h
      exact ⟨us, as_, ws, us2, as2, ws2, rfl, rfl, rfl, hu2, ha2, hw2, this.symm⟩

/-! Claim theorems. -/

/-- C1: the claim says the row-selection argument passed to the injected
model is the requester's own row `matrix[user_id]`. The code instead passes
`user_artists_matrix[n]`, indexing with the recommendation count. Witnessed
here at `user_id = 3`, `n = 10` on a matrix whose rows 3 and 10 differ: the
model (which reports column 0 of whatever row it received) sees row 10's
value 7, while the spec-mandated variant `recommendSpecRow` sees row 3's
value 5. -/
theorem recommend_row_selection_bug :
    (ImplicitRecommender.recommend spyRecommender () 3 exMatrixRows 10).2
        = Except.ok ([], [(7 : ℚ)])
      ∧ matEntry exMatrixRows 3 0 = 5
      ∧ matEntry exMatrixRows 10 0 = 7
      ∧ (recommendSpecRow spyRecommender () 3 exMatrixRows 10).2
        = Except.ok ([], [(5 : ℚ)]) := by
  refine ⟨?_, ?_, ?_, ?_⟩ <;>
    norm_num [ImplicitRecommender.recommend, recommendSpecRow, spyRecommender,
      spyModel, exMatrixRows, matEntry, mapLookup]

/-- C8: on a freshly constructed retriever — and still after any failed
load — `get_artist_name_from_id` fails with the uninitialized-state error,
whatever the id argument. -/
theorem name_of_before_load_spec :
    (∀ id : ℕ, ArtistRetriever.init.get_artist_name_from_id id
        = Except.error LookupErr.uninitialized)
    ∧ ∀ (f : DataFrame) (e : LoadErr) (r2 : ArtistRetriever),
        ArtistRetriever.load_artists ArtistRetriever.init f = (r2, some e) →
        ∀ id : ℕ, r2.get_artist_name_from_id id
          = Except.error LookupErr.uninitialized := by
  constructor
  · intro id; rfl
  · intro f e r2 h id
    unfold ArtistRetriever.load_artists at h
    cases hp : parseArtists f with
    | ok df => rw [hp] at h; simp at h
    | error e2 =>
      rw [hp] at h
      injection h with h1 h2
      rw [← h1]
      rfl

/-- Witness for C8: a load from a file without the required columns fails,
and the lookup afterwards (as from the start) is an uninitialized-state
error. -/
theorem name_of_before_load_witness :
    ArtistRetriever.load_artists ArtistRetriever.init ⟨["nope"], []⟩
        = (ArtistRetriever.init, some LoadErr.missingColumn)
    ∧ ArtistRetriever.init.get_artist_name_from_id 7
        = Except.error LookupErr.uninitialized :=
  ⟨rfl, name_of_before_load_spec.2 ⟨["nope"], []⟩ LoadErr.missingColumn
    ArtistRetriever.init rfl 7⟩

/-- C9: `load_artists` is atomic on the retriever state: if it raises, the
previous state is returned unchanged; if it succeeds, the state is exactly
the fully built table parsed from the file. -/
theorem load_artists_atomic_spec (r : ArtistRetriever) (f : DataFrame) :
    (∀ e : LoadErr, (ArtistRetriever.load_artists r f).2 = some e →
        (ArtistRetriever.load_artists r f).1 = r)
    ∧ (∀ df, parseArtists f = Except.ok df →
        ArtistRetriever.load_artists r f = (⟨some df⟩, none)) := by
  constructor
  · intro e he
    unfold ArtistRetriever.load_artists at he ⊢
    cases hp : parseArtists f with
    | ok df => rw [hp] at he; simp at he
    | error e2 => rfl
  · intro df hp
    unfold ArtistRetriever.load_artists
    rw [hp]

/-- Witness for C9: a failing load leaves a previously loaded table in
place; a succeeding load replaces it with the new table. -/
theorem load_artists_atomic_witness :
    (ArtistRetriever.load_artists ⟨some [(1, "A")]⟩ ⟨["x"], []⟩).2
        = some LoadErr.missingColumn
    ∧ (ArtistRetriever.load_artists ⟨some [(1, "A")]⟩ ⟨["x"], []⟩).1
        = ⟨some [(1, "A")]⟩
    ∧ parseArtists ⟨["id", "name"], [[Cell.num 2, Cell.str "B"]]⟩
        = Except.ok [(2, "B")]
    ∧ ArtistRetriever.load_artists ⟨some [(1, "A")]⟩
          ⟨["id", "name"], [[Cell.num 2, Cell.str "B"]]⟩
        = (⟨some [(2, "B")]⟩, none) :=
  ⟨rfl, (load_artists_atomic_spec ⟨some [(1, "A")]⟩ ⟨["x"], []⟩).1
      LoadErr.missingColumn rfl,
    rfl, (load_artists_atomic_spec ⟨some [(1, "A")]⟩
      ⟨["id", "name"], [[Cell.num 2, Cell.str "B"]]⟩).2 [(2, "B")] rfl⟩

/-- C10: `recommend` leaves the facade's own state unchanged — the facade
record (hence its reference to the entity directory, the directory's loaded
table, and the reference to the model) and the interaction matrix are the
same after the call; only the model's opaque state component may differ. -/
theorem recommend_frame_spec (σ : Type) (rec : ImplicitRecommender σ) (ms : σ)
    (user_id : ℕ) (matrix : List Triple) (n : ℕ) :
    (ImplicitRecommender.recommend rec ms user_id matrix n).1.1 = rec
    ∧ (ImplicitRecommender.recommend rec ms user_id matrix n).1.1.artist_retriever
        = rec.artist_retriever
    ∧ (ImplicitRecommender.recommend rec ms user_id matrix n).1.2.1 = matrix :=
  ⟨rfl, rfl, rfl⟩

/-- C4: after a successful load, `get_artist_name_from_id` returns exactly
the `name` field of the unique row of the file carrying that id, and fails
with a not-found error on an id no row carries. -/
theorem name_of_after_load_spec (r : ArtistRetriever) (f : DataFrame)
    (df : List (ℕ × String)) (hp : parseArtists f = Except.ok df) :
    (∀ (id : ℕ) (name : String), (id, name) ∈ df →
        (∀ p ∈ df, p.1 = id → p.2 = name) →
        (ArtistRetriever.load_artists r f).1.get_artist_name_from_id id
          = Except.ok name)
    ∧ (∀ id : ℕ, (∀ p ∈ df, p.1 ≠ id) →
        (ArtistRetriever.load_artists r f).1.get_artist_name_from_id id
          = Except.error LookupErr.notFound) := by
  have hload : (ArtistRetriever.load_artists r f).1 = ⟨some df⟩ := by
    unfold ArtistRetriever.load_artists
    rw [hp]
  constructor
  · intro id name hmem huniq
    rw [hload]
    simp only [ArtistRetriever.get_artist_name_from_id]
    rw [find_some_of_unique df id name hmem huniq]
  · intro id hab
    rw [hload]
    simp only [ArtistRetriever.get_artist_name_from_id]
    rw [find_none_of_absent df id hab]

/-- Witness for C4: the round trip of the claim — load a file with rows
`(1, "A")` and `(2, "B")`; then `name_of 1 = "A"`, `name_of 2 = "B"`, and
`name_of 3` is a not-found error. -/
theorem name_of_after_load_witness :
    parseArtists ⟨["id", "name"],
        [[Cell.num 1, Cell.str "A"], [Cell.num 2, Cell.str "B"]]⟩
      = Except.ok [(1, "A"), (2, "B")]
    ∧ (ArtistRetriever.load_artists ArtistRetriever.init
        ⟨["id", "name"],
          [[Cell.num 1, Cell.str "A"], [Cell.num 2, Cell.str "B"]]⟩).1.get_artist_name_from_id
        1 = Except.ok "A"
    ∧ (ArtistRetriever.load_artists ArtistRetriever.init
        ⟨["id", "name"],
          [[Cell.num 1, Cell.str "A"], [Cell.num 2, Cell.str "B"]]⟩).1.get_artist_name_from_id
        2 = Except.ok "B"
    ∧ (ArtistRetriever.load_artists ArtistRetriever.init
        ⟨["id", "name"],
          [[Cell.num 1, Cell.str "A"], [Cell.num 2, Cell.str "B"]]⟩).1.get_artist_name_from_id
        3 = Except.error LookupErr.notFound :=
  ⟨rfl,
    (name_of_after_load_spec ArtistRetriever.init
      ⟨["id", "name"], [[Cell.num 1, Cell.str "A"], [Cell.num 2, Cell.str "B"]]⟩
      [(1, "A"), (2, "B")] rfl).1 1 "A" (by decide) (by decide),
    (name_of_after_load_spec ArtistRetriever.init
      ⟨["id", "name"], [[Cell.num 1, Cell.str "A"], [Cell.num 2, Cell.str "B"]]⟩
      [(1, "A"), (2, "B")] rfl).1 2 "B" (by decide) (by decide),
    (name_of_after_load_spec ArtistRetriever.init
      ⟨["id", "name"], [[Cell.num 1, Cell.str "A"], [Cell.num 2, Cell.str "B"]]⟩
      [(1, "A"), (2, "B")] rfl).2 3 (by decide)⟩

/-- C5: when the loaded directory has no row for some id the model
returned, `recommend` fails with the not-found error — it returns no
result, so nothing is skipped or substituted. -/
theorem recommend_missing_id_spec (σ : Type) (rec : ImplicitRecommender σ)
    (ms : σ) (user_id : ℕ) (matrix : List Triple) (n : ℕ)
    (df : List (ℕ × String))
    (hload : rec.artist_retriever._artists_df = some df)
    (id0 : ℕ)
    (hmem : id0 ∈ (rec.implicit_model.recommendFn ms user_id
        (matEntry matrix n) n).2.1)
    (hmiss : ∀ p ∈ df, p.1 ≠ id0) :
    (ImplicitRecommender.recommend rec ms user_id matrix n).2
      = Except.error LookupErr.notFound := by
  have hlup : rec.artist_retriever.get_artist_name_from_id id0
      = Except.error LookupErr.notFound := by
    simp only [ArtistRetriever.get_artist_name_from_id, hload]
    rw [find_none_of_absent df id0 hmiss]
  have hmap := mapLookup_error_of_missing hload hmem hlup
  simp only [ImplicitRecommender.recommend]
  rw [hmap]

/-- Witness for C5: a model that returns item id 5 while the directory only
knows id 1 makes `recommend` fail with the not-found error. -/
theorem recommend_missing_id_witness :
    (ImplicitRecommender.recommend
        (⟨⟨some [(1, "A")]⟩,
          ⟨fun s _ => s, fun s _ _ _ => (s, ([5], []))⟩⟩ : ImplicitRecommender Unit)
        () 0 [] 10).2
      = Except.error LookupErr.notFound :=
  recommend_missing_id_spec Unit
    ⟨⟨some [(1, "A")]⟩, ⟨fun s _ => s, fun s _ _ _ => (s, ([5], []))⟩⟩
    () 0 [] 10 [(1, "A")] rfl 5 (by simp) (by decide)

/-- C3: when the model returns equally long id and score lists with at most
`n` entries and every id resolves in the directory, `recommend` returns two
parallel sequences of equal length at most `n`, with the name at position
`k` being the translation of the model's id at position `k` — each
occurrence translated separately, so duplicate ids are not deduplicated. -/
theorem recommend_parallel_spec (σ : Type) (rec : ImplicitRecommender σ)
    (ms ms2 : σ) (user_id : ℕ) (matrix : List Triple) (n : ℕ)
    (ids : List ℕ) (scores : List ℚ)
    (hmodel : rec.implicit_model.recommendFn ms user_id (matEntry matrix n) n
      = (ms2, (ids, scores)))
    (hlen : ids.length = scores.length) (hle : ids.length ≤ n)
    (hok : ∀ id ∈ ids, ∃ s,
      rec.artist_retriever.get_artist_name_from_id id = Except.ok s) :
    ∃ names,
      (ImplicitRecommender.recommend rec ms user_id matrix n).2
        = Except.ok (names, scores)
      ∧ names.length = scores.length
      ∧ names.length ≤ n
      ∧ ∀ (k : ℕ) (hk : k < ids.length) (hk2 : k < names.length),
          rec.artist_retriever.get_artist_name_from_id (ids.get ⟨k, hk⟩)
            = Except.ok (names.get ⟨k, hk2⟩) := by
  obtain ⟨names, hnames, hlen2, hget⟩ := mapLookup_ok hok
  refine ⟨names, ?_, by omega, by omega, hget⟩
  simp [ImplicitRecommender.recommend, hmodel, hnames]

/-- Witness for C3: a model that returns the duplicate-id list `[1, 1]`
with scores `[2, 3]` against a directory knowing id 1: the facade returns
`(["A", "A"], [2, 3])`, translating the duplicate id twice. -/
theorem recommend_parallel_witness :
    ((⟨⟨some [(1, "A")]⟩,
        ⟨fun s _ => s, fun s _ _ _ => (s, ([1, 1], [2, 3]))⟩⟩ :
        ImplicitRecommender Unit).implicit_model.recommendFn () 4
        (matEntry [] 2) 2 = ((), ([1, 1], ([2, 3] : List ℚ))))
    ∧ ∃ names,
        (ImplicitRecommender.recommend
            (⟨⟨some [(1, "A")]⟩,
              ⟨fun s _ => s, fun s _ _ _ => (s, ([1, 1], [2, 3]))⟩⟩ :
              ImplicitRecommender Unit) () 4 [] 2).2
          = Except.ok (names, ([2, 3] : List ℚ))
        ∧ names.length = ([2, 3] : List ℚ).length
        ∧ names.length ≤ 2
        ∧ ∀ (k : ℕ) (hk : k < ([1, 1] : List ℕ).length) (hk2 : k < names.length),
            (⟨⟨some [(1, "A")]⟩,
              ⟨fun s _ => s, fun s _ _ _ => (s, ([1, 1], [2, 3]))⟩⟩ :
              ImplicitRecommender Unit).artist_retriever.get_artist_name_from_id
                (([1, 1] : List ℕ).get ⟨k, hk⟩)
              = Except.ok (names.get ⟨k, hk2⟩) :=
  ⟨rfl,
    recommend_parallel_spec Unit
      ⟨⟨some [(1, "A")]⟩, ⟨fun s _ => s, fun s _ _ _ => (s, ([1, 1], [2, 3]))⟩⟩
      () () 4 [] 2 [1, 1] [2, 3] rfl rfl (by decide)
      (by
        intro id hid
        have h1 : id = 1 := by
          rcases List.mem_cons.mp hid with h | h
          · exact h
          · simpa using h
        subst h1
        exact ⟨"A", rfl⟩)⟩

/-- C2: on a successfully loaded interaction file, the matrix entry at
`(u, i)` is the sum of the weights of exactly the input rows with that
coordinate pair (zero when there is none, duplicates summed), and the sum
of all matrix entries equals the sum of the file's `weight` column. -/
theorem load_user_artists_weight_sum_spec (f : DataFrame) (rows : List Triple)
    (h : load_user_artists f = Except.ok rows) :
    (∀ u i : ℕ, matEntry rows u i
        = ((rows.filter (fun r => r.1 == u && r.2.1 == i)).map
            (fun r => r.2.2)).sum)
    ∧ ∃ cells ws, getCol f "weight" = some cells
        ∧ mapCells cellNum cells = some ws
        ∧ (∑ u ∈ Finset.range (shapeOf rows).1,
            ∑ i ∈ Finset.range (shapeOf rows).2, matEntry rows u i) = ws.sum := by
  obtain ⟨us, as_, ws, us2, as2, ws2, hu, ha, hw, hu2, ha2, hw2, hrows⟩ :=
    load_user_artists_ok_elim h
  refine ⟨fun u i => matEntry_filter rows u i, ws, ws2, hw, hw2, ?_⟩
  have hmap : rows.map (fun r => r.2.2) = ws2 := by
    rw [hrows]
    apply zip3_map_third
    · rw [mapCells_length hu2, mapCells_length hw2, getCol_length hu,
        getCol_length hw]
    · rw [mapCells_length ha2, mapCells_length hw2, getCol_length ha,
        getCol_length hw]
  rw [sum_matEntry rows _ _ (shapeOf_bound rows), hmap]

/-- Witness for C2: the end-to-end duplicate scenario — rows
`(1, 10, 5)` and `(1, 10, 3)` load successfully, the summed entry
`M[1, 10]` is `8`, and the totals agree. -/
theorem load_user_artists_weight_sum_witness :
    load_user_artists
        ⟨["userID", "artistID", "weight"],
          [[Cell.num 1, Cell.num 10, Cell.num 5],
           [Cell.num 1, Cell.num 10, Cell.num 3]]⟩
      = Except.ok [(1, 10, 5), (1, 10, 3)]
    ∧ ((∀ u i : ℕ, matEntry [(1, 10, 5), (1, 10, 3)] u i
          = ((([(1, 10, 5), (1, 10, 3)] : List Triple).filter
              (fun r => r.1 == u && r.2.1 == i)).map (fun r => r.2.2)).sum)
      ∧ ∃ cells ws,
          getCol ⟨["userID", "artistID", "weight"],
            [[Cell.num 1, Cell.num 10, Cell.num 5],
             [Cell.num 1, Cell.num 10, Cell.num 3]]⟩ "weight" = some cells
          ∧ mapCells cellNum cells = some ws
          ∧ (∑ u ∈ Finset.range (shapeOf [(1, 10, 5), (1, 10, 3)]).1,
              ∑ i ∈ Finset.range (shapeOf [(1, 10, 5), (1, 10, 3)]).2,
              matEntry [(1, 10, 5), (1, 10, 3)] u i) = ws.sum)
    ∧ matEntry [(1, 10, 5), (1, 10, 3)] 1 10 = 8 :=
  ⟨rfl,
    load_user_artists_weight_sum_spec
      ⟨["userID", "artistID", "weight"],
        [[Cell.num 1, Cell.num 10, Cell.num 5],
         [Cell.num 1, Cell.num 10, Cell.num 3]]⟩
      [(1, 10, 5), (1, 10, 3)] rfl,
    by norm_num [matEntry]⟩

/-- C6: the matrix a successful load produces has exactly the dimensions
`(max observed userID + 1) × (max observed artistID + 1)`: every observed
id is a valid coordinate on its axis and each dimension is attained by an
observed id, so ids index the matrix directly rather than being remapped to
a dense range. -/
theorem load_user_artists_shape_spec (f : DataFrame) (rows : List Triple)
    (_h : load_user_artists f = Except.ok rows) (hne : rows ≠ []) :
    (∀ r ∈ rows, r.1 < (shapeOf rows).1 ∧ r.2.1 < (shapeOf rows).2)
    ∧ (∃ r ∈ rows, (shapeOf rows).1 = r.1 + 1)
    ∧ (∃ r ∈ rows, (shapeOf rows).2 = r.2.1 + 1) := by
  refine ⟨shapeOf_bound rows, ?_, ?_⟩
  · have hmm : (rows.map (fun r => r.1)).foldr Nat.max 0
        ∈ rows.map (fun r => r.1) :=
      foldrMax_mem (by simpa using hne)
    obtain ⟨r, hr, hEq⟩ := List.mem_map.mp hmm
    exact ⟨r, hr, by simp [shapeOf, hEq]⟩
  · have hmm : (rows.map (fun r => r.2.1)).foldr Nat.max 0
        ∈ rows.map (fun r => r.2.1) :=
      foldrMax_mem (by simpa using hne)
    obtain ⟨r, hr, hEq⟩ := List.mem_map.mp hmm
    exact ⟨r, hr, by simp [shapeOf, hEq]⟩

/-- Witness for C6: the two-row file above loads into a matrix of shape
`(1 + 1) × (10 + 1)`, the dimensions bounding and attained by the raw
ids. -/
theorem load_user_artists_shape_witness :
    load_user_artists
        ⟨["userID", "artistID", "weight"],
          [[Cell.num 1, Cell.num 10, Cell.num 5],
           [Cell.num 1, Cell.num 10, Cell.num 3]]⟩
      = Except.ok [(1, 10, 5), (1, 10, 3)]
    ∧ ([(1, 10, 5), (1, 10, 3)] : List Triple) ≠ []
    ∧ ((∀ r ∈ ([(1, 10, 5), (1, 10, 3)] : List Triple),
          r.1 < (shapeOf [(1, 10, 5), (1, 10, 3)]).1
          ∧ r.2.1 < (shapeOf [(1, 10, 5), (1, 10, 3)]).2)
      ∧ (∃ r ∈ ([(1, 10, 5), (1, 10, 3)] : List Triple),
          (shapeOf [(1, 10, 5), (1, 10, 3)]).1 = r.1 + 1)
      ∧ (∃ r ∈ ([(1, 10, 5), (1, 10, 3)] : List Triple),
          (shapeOf [(1, 10, 5), (1, 10, 3)]).2 = r.2.1 + 1)) :=
  ⟨rfl, by simp,
    load_user_artists_shape_spec
      ⟨["userID", "artistID", "weight"],
        [[Cell.num 1, Cell.num 10, Cell.num 5],
         [Cell.num 1, Cell.num 10, Cell.num 3]]⟩
      [(1, 10, 5), (1, 10, 3)] rfl (by simp)⟩

/-- C7: `load_user_artists` fails with the parsing (missing-column) error
whenever one of `userID`, `artistID`, `weight` is absent from the header,
and fails with the type error when the columns are present but the `weight`
column holds a non-numeric cell; an `Except.error` result returns no
matrix. -/
theorem load_user_artists_failure_spec (f : DataFrame) :
    (("userID" ∉ f.header ∨ "artistID" ∉ f.header ∨ "weight" ∉ f.header) →
        load_user_artists f = Except.error LoadErr.missingColumn)
    ∧ (∀ cells, "userID" ∈ f.header → "artistID" ∈ f.header →
        getCol f "weight" = some cells →
        (∃ c ∈ cells, cellNum c = none) →
        load_user_artists f = Except.error LoadErr.typeError) := by
  constructor
  · intro hmiss
    unfold load_user_artists
    rcases hmiss with h | h | h
    · rw [getCol_none_of_not_mem h]
    · cases getCol f "userID" <;> rw [getCol_none_of_not_mem h]
    · cases getCol f "userID" <;> cases getCol f "artistID" <;>
        rw [getCol_none_of_not_mem h]
  · intro cells hu ha hw hbad
    obtain ⟨usc, husc⟩ := getCol_isSome_of_mem hu
    obtain ⟨asc, hasc⟩ := getCol_isSome_of_mem ha
    obtain ⟨c, hc, hcn⟩ := hbad
    have hwnone : mapCells cellNum cells = none := mapCells_none_of_bad hc hcn
    simp only [load_user_artists, husc, hasc, hw, hwnone]
    cases mapCells cellNat usc <;> cases mapCells cellNat asc <;> rfl

/-- Witness for C7: a file lacking the `weight` column fails with the
missing-column error; a file whose `weight` column holds the string `"x"`
fails with the type error. -/
theorem load_user_artists_failure_witness :
    load_user_artists ⟨["userID", "artistID"], []⟩
        = Except.error LoadErr.missingColumn
    ∧ load_user_artists
        ⟨["userID", "artistID", "weight"],
          [[Cell.num 1, Cell.num 2, Cell.str "x"]]⟩
        = Except.error LoadErr.typeError :=
  ⟨(load_user_artists_failure_spec ⟨["userID", "artistID"], []⟩).1
      (Or.inr (Or.inr (by decide))),
    (load_user_artists_failure_spec
        ⟨["userID", "artistID", "weight"],
          [[Cell.num 1, Cell.num 2, Cell.str "x"]]⟩).2
      [Cell.str "x"] (by decide) (by decide) rfl
      ⟨Cell.str "x", by decide, rfl⟩⟩
